import Mathlib

/-!
Verification development for the Myntraq messaging server.

The data model is a shallow embedding of the drizzle schema (shared/schema.ts):
tables become lists of rows inside a `State` record.  The storage layer
(`DatabaseStorage` in server/storage.ts) becomes pure functions from `State`
to `State`, and the express route handlers (server/routes.ts) become functions
that additionally return an HTTP-style status.  Timestamps are naturals,
generated ids are passed in explicitly (the database generates them with
gen_random_uuid), and the authenticated caller (`req.user.claims.sub`) is an
explicit `userId` argument.
-/

namespace Myntraq

/-- Chat kind: the `type` column of `chats` ("private", "group" or "channel"). -/
inductive ChatType where
  | priv
  | group
  | channel
deriving DecidableEq

/-- Participant role: the `role` column of `chat_participants` ("admin" or "member"). -/
inductive Role where
  | admin
  | member
deriving DecidableEq

/-- A row of the `chats` table. -/
structure Chat where
  id : String
  type : ChatType
  name : Option String := none
  description : Option String := none
  iconUrl : Option String := none
  createdBy : Option String := none
  createdAt : Nat := 0
  updatedAt : Nat := 0
deriving DecidableEq

/-- A row of the `chat_participants` table.  Its primary key is the generated
`id`; there is no uniqueness constraint on the pair (chatId, userId). -/
structure ChatParticipant where
  id : String
  chatId : String
  userId : String
  role : Role := Role.member
  joinedAt : Nat := 0
  lastRead : Option Nat := none
deriving DecidableEq

/-- A row of the `messages` table. -/
structure Message where
  id : String
  chatId : String
  senderId : String
  content : String
  type : String := "text"
  attachmentUrl : Option String := none
  attachmentName : Option String := none
  attachmentSize : Option Nat := none
  createdAt : Nat := 0
  isRead : Bool := false
deriving DecidableEq

/-- A row of the `friendships` table. -/
structure Friendship where
  id : String
  userId : String
  friendId : String
  status : String := "pending"
  createdAt : Nat := 0
deriving DecidableEq

/-- The relational store: one list of rows per table. -/
structure State where
  chats : List Chat := []
  participants : List ChatParticipant := []
  messages : List Message := []
  friendships : List Friendship := []
deriving DecidableEq

/-! ## Storage layer (DatabaseStorage, server/storage.ts) -/

/-- `getChat`: select the chat row with the given id. -/
def getChat (st : State) (chatId : String) : Option Chat :=
  st.chats.find? (fun c => c.id == chatId)

/-- `getChatParticipant`: select the participation row for (chatId, userId). -/
def getChatParticipant (st : State) (chatId userId : String) : Option ChatParticipant :=
  st.participants.find? (fun p => p.chatId == chatId && p.userId == userId)

/-- `getChatParticipants`: all participation rows of a chat (the profile join
is dropped: profiles are never consulted by the logic under study). -/
def getChatParticipants (st : State) (chatId : String) : List ChatParticipant :=
  st.participants.filter (fun p => p.chatId == chatId)

/-- `addChatParticipant`: a bare insert into `chat_participants`; the table has
no constraint on the pair, so this always succeeds and returns the new row. -/
def addChatParticipant (st : State) (p : ChatParticipant) : ChatParticipant × State :=
  (p, { st with participants := st.participants ++ [p] })

/-- `removeChatParticipant`: delete every row matching (chatId, userId). -/
def removeChatParticipant (st : State) (chatId userId : String) : State :=
  { st with participants :=
      st.participants.filter (fun p => !(p.chatId == chatId && p.userId == userId)) }

/-- `updateParticipantRole`: set `role` on every row matching (chatId, userId),
returning the first updated row (the destructured `[updated]`). -/
def updateParticipantRole (st : State) (chatId userId : String) (role : Role) :
    Option ChatParticipant × State :=
  let updatedList := st.participants.map (fun p =>
    if p.chatId == chatId && p.userId == userId then { p with role := role } else p)
  (updatedList.find? (fun p => p.chatId == chatId && p.userId == userId),
   { st with participants := updatedList })

/-- `markMessagesAsRead`: set the read cursor of (chatId, userId) to now. -/
def markMessagesAsRead (st : State) (chatId userId : String) (now : Nat) : State :=
  { st with participants := st.participants.map (fun p =>
      if p.chatId == chatId && p.userId == userId then { p with lastRead := some now } else p) }

/-- `getMessages`: the messages of the chat ordered by createdAt descending,
truncated to `limit`, then reversed (so ascending on return). -/
def getMessages (st : State) (chatId : String) (limit : Nat) : List Message :=
  (((st.messages.filter (fun m => m.chatId == chatId)).mergeSort
      (fun a b => decide (b.createdAt ≤ a.createdAt))).take limit).reverse

/-- `createMessage`: insert the message row, then touch the parent chat
`updatedAt`. -/
def createMessage (st : State) (m : Message) (now : Nat) : Message × State :=
  (m, { st with
          messages := st.messages ++ [m]
          chats := st.chats.map (fun c =>
            if c.id == m.chatId then { c with updatedAt := now } else c) })

/-- The client-facing aggregate `ChatWithDetails`. -/
structure ChatWithDetails where
  chat : Chat
  participants : List ChatParticipant
  lastMessage : Option Message
  unreadCount : Nat
deriving DecidableEq

/-- `getChatWithDetails`: chat row + participants + most recent message;
`unreadCount` is hard-coded to 0 at this layer. -/
def getChatWithDetails (st : State) (chatId : String) : Option ChatWithDetails :=
  match getChat st chatId with
  | none => none
  | some chat =>
      some { chat := chat
             participants := getChatParticipants st chatId
             lastMessage := (getMessages st chatId 1).head?
             unreadCount := 0 }

/-- The unread-count query inside `getUserChats`: count of messages of the chat
whose sender is not `userId`, restricted to `createdAt > lastRead` when the
cursor is set (`lastRead ? createdAt > lastRead : true`). -/
def unreadCountQuery (st : State) (chatId userId : String) (lastRead : Option Nat) : Nat :=
  (st.messages.filter (fun m =>
    m.chatId == chatId && m.senderId != userId &&
      (match lastRead with
       | some t => decide (t < m.createdAt)
       | none => true))).length

/-- The sort key of `getUserChats`: `lastMessage?.createdAt || chat.createdAt`. -/
def chatSortTime (c : ChatWithDetails) : Nat :=
  match c.lastMessage with
  | some m => m.createdAt
  | none => c.chat.createdAt

/-- `getUserChats`: for each participation of the user, build the aggregate
with the real unread count, then sort descending by `chatSortTime`. -/
def getUserChats (st : State) (userId : String) : List ChatWithDetails :=
  let userParticipations := st.participants.filter (fun p => p.userId == userId)
  let chatIds := userParticipations.map (fun p => p.chatId)
  let rows := chatIds.filterMap (fun chatId =>
    match getChatWithDetails st chatId with
    | none => none
    | some cwd =>
        let lastRead := (userParticipations.find? (fun p => p.chatId == chatId)).bind
          (fun p => p.lastRead)
        some { cwd with unreadCount := unreadCountQuery st chatId userId lastRead })
  rows.mergeSort (fun a b => decide (chatSortTime b ≤ chatSortTime a))

/-- `getPrivateChatBetweenUsers`: scan the participations of userId1, return the
first private chat with exactly two participation rows, one of them userId2. -/
def getPrivateChatBetweenUsers (st : State) (userId1 userId2 : String) : Option Chat :=
  (st.participants.filter (fun p => p.userId == userId1)).findSome? (fun participation =>
    match getChat st participation.chatId with
    | none => none
    | some chat =>
        if chat.type == ChatType.priv then
          let ps := getChatParticipants st participation.chatId
          if ps.length == 2 && ps.any (fun p => p.userId == userId2) then some chat else none
        else none)

/-- `updateFriendshipStatus`: set `status` on the row with the given id,
returning the first updated row. -/
def updateFriendshipStatus (st : State) (id status : String) :
    Option Friendship × State :=
  let updatedList := st.friendships.map (fun f =>
    if f.id == id then { f with status := status } else f)
  (updatedList.find? (fun f => f.id == id), { st with friendships := updatedList })

/-! ## Route handlers (server/routes.ts) -/

/-- HTTP-style outcome of a handler. -/
inductive ApiStatus where
  | ok
  | badRequest
  | forbidden
  | notFound
deriving DecidableEq

/-- Body of POST /api/chats/:chatId/messages. -/
structure SendMessageBody where
  content : String
  type : String := "text"
  attachmentUrl : Option String := none
  attachmentName : Option String := none
  attachmentSize : Option Nat := none
deriving DecidableEq

/-- The zod `sendMessageSchema` checks: content length in [1, 5000], type one
of the four message kinds. -/
def validSendMessage (b : SendMessageBody) : Bool :=
  decide (1 ≤ b.content.length) && decide (b.content.length ≤ 5000) &&
    (b.type == "text" || b.type == "image" || b.type == "file" || b.type == "voice")

/-- POST /api/chats/:chatId/messages: validate the body; if the chat is a
channel, reject senders that are not admin participants; otherwise insert the
message.  No participant check is made for non-channel chats. -/
def sendMessageHandler (st : State) (userId chatId : String) (body : SendMessageBody)
    (newId : String) (now : Nat) : ApiStatus × State :=
  if validSendMessage body = false then (ApiStatus.badRequest, st) else
  let inserted : ApiStatus × State :=
    (ApiStatus.ok,
     (createMessage st
        { id := newId
          chatId := chatId
          senderId := userId
          content := body.content.trim
          type := body.type
          attachmentUrl := body.attachmentUrl
          attachmentName := body.attachmentName
          attachmentSize := body.attachmentSize
          createdAt := now } now).2)
  match getChatWithDetails st chatId with
  | some cwd =>
      if cwd.chat.type == ChatType.channel then
        match cwd.participants.find? (fun p => p.userId == userId) with
        | some participant =>
            if participant.role != Role.admin then (ApiStatus.forbidden, st) else inserted
        | none => (ApiStatus.forbidden, st)
      else inserted
  | none => inserted

/-- DELETE /api/groups/:chatId/members/:memberId: a user may remove themself,
an admin may remove others; the creator can never be removed — that last check
answers with status 400 ("Cannot remove the group creator"), and it also fires
on a self-removal by the creator.  The chat kind is never inspected. -/
def removeMemberHandler (st : State) (userId chatId memberId : String) : ApiStatus × State :=
  match getChat st chatId with
  | none => (ApiStatus.notFound, st)
  | some chat =>
      if memberId != userId &&
          (match getChatParticipant st chatId userId with
           | some p => p.role != Role.admin
           | none => true) then
        (ApiStatus.forbidden, st)
      else if chat.createdBy == some memberId then
        (ApiStatus.badRequest, st)
      else
        (ApiStatus.ok, removeChatParticipant st chatId memberId)

/-- PATCH /api/groups/:chatId/members/:memberId/role: the caller must be an
admin participant of the chat; the rows of the target are then updated with no
further check (in particular, no creator protection). -/
def updateRoleHandler (st : State) (userId chatId memberId : String) (role : Role) :
    ApiStatus × State :=
  match getChatParticipant st chatId userId with
  | none => (ApiStatus.forbidden, st)
  | some participant =>
      if participant.role != Role.admin then (ApiStatus.forbidden, st)
      else (ApiStatus.ok, (updateParticipantRole st chatId memberId role).2)

/-- POST /api/chats: find-or-create the private chat between the caller and
`participantId`.  `newChatId`, `pid1`, `pid2` stand for the generated row ids. -/
def createChatHandler (st : State) (userId participantId : String)
    (newChatId pid1 pid2 : String) (now : Nat) : ApiStatus × State :=
  if decide (1 ≤ participantId.length) = false then (ApiStatus.badRequest, st) else
  match getPrivateChatBetweenUsers st userId participantId with
  | some _ => (ApiStatus.ok, st)
  | none =>
      let chat : Chat :=
        { id := newChatId, type := ChatType.priv, createdAt := now, updatedAt := now }
      let st1 := { st with chats := st.chats ++ [chat] }
      let st2 := (addChatParticipant st1
        { id := pid1, chatId := newChatId, userId := userId, joinedAt := now }).2
      let st3 := (addChatParticipant st2
        { id := pid2, chatId := newChatId, userId := participantId, joinedAt := now }).2
      (ApiStatus.ok, st3)

set_option linter.unusedVariables false in
/-- PATCH /api/friends/:friendshipId: validate the status body against the zod
enum ("accepted" or "rejected"), then update the friendship row by id.  The
authenticated caller (`callerId`) is attached by the middleware but the handler
body never reads it. -/
def updateFriendshipHandler (st : State) (callerId friendshipId statusBody : String) :
    ApiStatus × State :=
  if statusBody == "accepted" || statusBody == "rejected" then
    (ApiStatus.ok, (updateFriendshipStatus st friendshipId statusBody).2)
  else (ApiStatus.badRequest, st)

/-! ## Spec-side definitions

Restatements of the wording of the specification, to be compared with the values
the code computes. -/

/-- Spec wording for the unread count: "count of messages in that chat
authored by someone other than userId with createdAt strictly greater than
the read-cursor of the caller for that chat (or all such messages if the cursor is
null/never-read)". -/
def specUnreadCount (msgs : List Message) (chatId userId : String)
    (cursor : Option Nat) : Nat :=
  (msgs.filter (fun m =>
    m.chatId == chatId && !(m.senderId == userId) &&
      (match cursor with
       | none => true
       | some t => decide (t < m.createdAt)))).length

/-- The read-cursor of a user for a chat: the `lastRead` of their (first)
participation row for that chat, `none` when absent or never read. -/
def specReadCursor (st : State) (userId chatId : String) : Option Nat :=
  (st.participants.find? (fun p => p.userId == userId && p.chatId == chatId)).bind
    (fun p => p.lastRead)

/-! ## Helper lemmas -/

theorem unreadCountQuery_eq_spec (st : State) (chatId userId : String)
    (cursor : Option Nat) :
    unreadCountQuery st chatId userId cursor =
      specUnreadCount st.messages chatId userId cursor := by
  cases cursor <;> rfl

theorem find?_decide_and {α : Type} (l : List α) (q p : α → Bool) :
    l.find? (fun a => decide (q a = true ∧ p a = true)) = l.find? (fun a => q a && p a) := by
  have h : (fun a => decide (q a = true ∧ p a = true)) = fun a => q a && p a := by
    funext a
    cases hq : q a <;> cases hp : p a <;> simp
  rw [h]

theorem getChat_id {st : State} {cid : String} {c : Chat}
    (h : getChat st cid = some c) : c.id = cid := by
  have hb := List.find?_some h
  exact eq_of_beq hb

theorem getChatWithDetails_some {st : State} {cid : String} {cwd : ChatWithDetails}
    (h : getChatWithDetails st cid = some cwd) :
    getChat st cid = some cwd.chat ∧ cwd.participants = getChatParticipants st cid := by
  unfold getChatWithDetails at h
  cases hg : getChat st cid with
  | none => rw [hg] at h; simp at h
  | some chat =>
      rw [hg] at h
      injection h with h2
      subst h2
      exact ⟨rfl, rfl⟩

theorem getChatWithDetails_chat_id {st : State} {cid : String} {cwd : ChatWithDetails}
    (h : getChatWithDetails st cid = some cwd) : cwd.chat.id = cid :=
  getChat_id (getChatWithDetails_some h).1

/-- `getUserChats` with its let-bindings expanded. -/
theorem getUserChats_def (st : State) (userId : String) :
    getUserChats st userId =
      (((st.participants.filter (fun p => p.userId == userId)).map
          (fun p => p.chatId)).filterMap (fun chatId =>
        match getChatWithDetails st chatId with
        | none => none
        | some cwd =>
            some { cwd with unreadCount := (unreadCountQuery st chatId userId
              (((st.participants.filter (fun p => p.userId == userId)).find?
                  (fun p => p.chatId == chatId)).bind (fun p => p.lastRead))) })).mergeSort
        (fun a b => decide (chatSortTime b ≤ chatSortTime a)) := rfl

/-- Membership in the chat list of a user, unfolded down to the stores. -/
theorem mem_getUserChats {st : State} {userId : String} {c : ChatWithDetails} :
    c ∈ getUserChats st userId ↔
      ∃ cid cwd,
        (∃ p ∈ st.participants, p.userId = userId ∧ p.chatId = cid) ∧
        getChatWithDetails st cid = some cwd ∧
        c = { cwd with unreadCount := (unreadCountQuery st cid userId
              (((st.participants.filter (fun p => p.userId == userId)).find?
                  (fun p => p.chatId == cid)).bind (fun p => p.lastRead))) } := by
  rw [getUserChats_def, List.mem_mergeSort, List.mem_filterMap]
  constructor
  · rintro ⟨cid, hcid, hf⟩
    rcases List.mem_map.mp hcid with ⟨p, hp, rfl⟩
    rcases List.mem_filter.mp hp with ⟨hpmem, hpu⟩
    cases hg : getChatWithDetails st p.chatId with
    | none => rw [hg] at hf; exact absurd hf (by simp)
    | some cwd =>
        rw [hg] at hf
        refine ⟨p.chatId, cwd, ⟨p, hpmem, eq_of_beq hpu, rfl⟩, hg, ?_⟩
        exact (Option.some.inj hf).symm
  · rintro ⟨cid, cwd, ⟨p, hpmem, hpu, hpc⟩, hg, rfl⟩
    refine ⟨cid, ?_, ?_⟩
    · exact List.mem_map.mpr ⟨p, List.mem_filter.mpr ⟨hpmem, by simp [hpu]⟩, hpc⟩
    · rw [hg]

/-- The cursor looked up inside `getUserChats` is the read-cursor of the spec. -/
theorem userLastRead_eq_specReadCursor (st : State) (userId cid : String) :
    ((st.participants.filter (fun p => p.userId == userId)).find?
        (fun p => p.chatId == cid)).bind (fun p => p.lastRead) =
      specReadCursor st userId cid := by
  unfold specReadCursor
  rw [List.find?_filter, find?_decide_and]

/-! ## Concrete stores used for counterexamples and witnesses -/

/-- A group chat "g1" created by alice, with admins alice and bob and member
carol. -/
def exStGroup : State :=
  { chats := [{ id := "g1", type := ChatType.group, name := some "team",
                createdBy := some "alice", createdAt := 1, updatedAt := 1 }]
    participants :=
      [{ id := "pa", chatId := "g1", userId := "alice", role := Role.admin, joinedAt := 1 },
       { id := "pb", chatId := "g1", userId := "bob", role := Role.admin, joinedAt := 2 },
       { id := "pc", chatId := "g1", userId := "carol", role := Role.member, joinedAt := 3 }] }

/-- A channel "ch1" created by alice (admin), with member bob. -/
def exStChannel : State :=
  { chats := [{ id := "ch1", type := ChatType.channel, name := some "news",
                createdBy := some "alice", createdAt := 1, updatedAt := 1 }]
    participants :=
      [{ id := "ka", chatId := "ch1", userId := "alice", role := Role.admin, joinedAt := 1 },
       { id := "kb", chatId := "ch1", userId := "bob", role := Role.member, joinedAt := 2 }] }

/-- A private chat "p1" between alice and bob (no creator, both members). -/
def exStPriv : State :=
  { chats := [{ id := "p1", type := ChatType.priv, createdAt := 4, updatedAt := 4 }]
    participants :=
      [{ id := "ra", chatId := "p1", userId := "alice", joinedAt := 4 },
       { id := "rb", chatId := "p1", userId := "bob", joinedAt := 4 }] }

/-- The empty store. -/
def emptyState : State := {}

/-! ## C1 -/

/-- C1 (amended): the role-update endpoint checks only that the caller is an
admin participant of the chat; the requested role is then applied to the
target with no creator protection, so the target — including the
creator — ends with the requested role on every matching row. -/
theorem c1_updateRole_no_creator_protection
    (st : State) (callerId chatId memberId : String) (role : Role)
    (cp : ChatParticipant)
    (hcp : getChatParticipant st chatId callerId = some cp)
    (hadm : cp.role = Role.admin) :
    (updateRoleHandler st callerId chatId memberId role).1 = ApiStatus.ok ∧
    ∀ q ∈ (updateRoleHandler st callerId chatId memberId role).2.participants,
      q.chatId = chatId → q.userId = memberId → q.role = role := by
  have hne : (cp.role != Role.admin) = false := by rw [hadm]; rfl
  unfold updateRoleHandler
  rw [hcp]
  simp only [hne, Bool.false_eq_true, if_false]
  refine ⟨by trivial, ?_⟩
  intro q hq hqc hqu
  unfold updateParticipantRole at hq
  simp only at hq
  rcases List.mem_map.mp hq with ⟨p, hp, rfl⟩
  by_cases hm : (p.chatId == chatId && p.userId == memberId) = true
  · rw [if_pos hm]
  · rw [if_neg hm] at hqc hqu ⊢
    exact absurd (by simp [hqc, hqu]) hm

/-- C1 counterexample: in `exStGroup` the admin bob demotes the creator alice
to member in one operation; alice is still a participant afterwards, with
role ≠ admin. -/
theorem c1_counterexample :
    (updateRoleHandler exStGroup "bob" "g1" "alice" Role.member).1 = ApiStatus.ok ∧
    getChatParticipant (updateRoleHandler exStGroup "bob" "g1" "alice" Role.member).2
        "g1" "alice" =
      some { id := "pa", chatId := "g1", userId := "alice", role := Role.member,
             joinedAt := 1, lastRead := none } := by
  decide

/-- C1 witness: the amended theorem instantiated in `exStGroup`. -/
theorem c1_witness :
    (updateRoleHandler exStGroup "bob" "g1" "alice" Role.member).1 = ApiStatus.ok ∧
    ∀ q ∈ (updateRoleHandler exStGroup "bob" "g1" "alice" Role.member).2.participants,
      q.chatId = "g1" → q.userId = "alice" → q.role = Role.member :=
  c1_updateRole_no_creator_protection exStGroup "bob" "g1" "alice" Role.member
    { id := "pb", chatId := "g1", userId := "bob", role := Role.admin,
      joinedAt := 2, lastRead := none }
    (by decide) (by decide)

/-! ## C3 -/

/-- C3 (amended): a removal of the creator by a caller other than the creator
always fails and leaves the store (hence the Participation row of the creator)
unchanged, but the resulting status is Forbidden only for callers that are not
admin participants; an admin caller receives status 400 (Bad Request) from the
creator-protection check, not Forbidden. -/
theorem c3_remove_creator_by_other_fails
    (st : State) (callerId chatId creator : String) (chat : Chat)
    (hc : getChat st chatId = some chat)
    (hcr : chat.createdBy = some creator)
    (hne : callerId ≠ creator) :
    (removeMemberHandler st callerId chatId creator).2 = st ∧
    (removeMemberHandler st callerId chatId creator).1 =
      (match getChatParticipant st chatId callerId with
       | some p => if p.role = Role.admin then ApiStatus.badRequest else ApiStatus.forbidden
       | none => ApiStatus.forbidden) := by
  have hb : (creator != callerId) = true := bne_iff_ne.mpr hne.symm
  have hcb : (chat.createdBy == some creator) = true := by rw [hcr]; simp
  cases hp : getChatParticipant st chatId callerId with
  | none =>
      simp [removeMemberHandler, hc, hp, hb]
  | some p =>
      cases hrole : p.role with
      | admin =>
          have hradm : (p.role != Role.admin) = false := by rw [hrole]; rfl
          simp [removeMemberHandler, hc, hp, hb, hradm, hcb, hrole]
      | member =>
          have hrmem : (p.role != Role.admin) = true := by rw [hrole]; rfl
          simp [removeMemberHandler, hc, hp, hb, hrmem, hrole]

/-- C3 counterexample: in `exStGroup` the admin bob tries to remove the
creator alice; the request fails, but with status 400, not Forbidden. -/
theorem c3_counterexample :
    (removeMemberHandler exStGroup "bob" "g1" "alice").1 = ApiStatus.badRequest ∧
    (removeMemberHandler exStGroup "bob" "g1" "alice").1 ≠ ApiStatus.forbidden ∧
    (removeMemberHandler exStGroup "bob" "g1" "alice").2 = exStGroup := by
  decide

/-- C3 witness: the amended theorem instantiated in `exStGroup` with the admin
caller bob targeting the creator alice. -/
theorem c3_witness :
    (removeMemberHandler exStGroup "bob" "g1" "alice").2 = exStGroup ∧
    (removeMemberHandler exStGroup "bob" "g1" "alice").1 =
      (match getChatParticipant exStGroup "g1" "bob" with
       | some p => if p.role = Role.admin then ApiStatus.badRequest else ApiStatus.forbidden
       | none => ApiStatus.forbidden) :=
  c3_remove_creator_by_other_fails exStGroup "bob" "g1" "alice"
    { id := "g1", type := ChatType.group, name := some "team", description := none,
      iconUrl := none, createdBy := some "alice", createdAt := 1, updatedAt := 1 }
    (by decide) (by decide) (by decide)

/-! ## C8 -/

/-- C8 (amended): the creator cannot leave voluntarily through the
member-removal endpoint: the creator-protection check fires on the
own self-removal as well, so the request fails with status 400 and the store
(hence the Participation row of the creator) is unchanged. -/
theorem c8_creator_self_removal_fails
    (st : State) (chatId creator : String) (chat : Chat)
    (hc : getChat st chatId = some chat)
    (hcr : chat.createdBy = some creator) :
    removeMemberHandler st creator chatId creator = (ApiStatus.badRequest, st) := by
  have hb : (creator != creator) = false := by simp
  have hcb : (chat.createdBy == some creator) = true := by rw [hcr]; simp
  simp [removeMemberHandler, hc, hb, hcb]

/-- C8 counterexample: in `exStGroup` the self-removal of creator alice fails
with status 400 and her Participation row is still present. -/
theorem c8_counterexample :
    (removeMemberHandler exStGroup "alice" "g1" "alice").1 = ApiStatus.badRequest ∧
    getChatParticipant (removeMemberHandler exStGroup "alice" "g1" "alice").2
        "g1" "alice" =
      some { id := "pa", chatId := "g1", userId := "alice", role := Role.admin,
             joinedAt := 1, lastRead := none } := by
  decide

/-- C8 witness: the amended theorem instantiated in `exStGroup`. -/
theorem c8_witness :
    removeMemberHandler exStGroup "alice" "g1" "alice" = (ApiStatus.badRequest, exStGroup) :=
  c8_creator_self_removal_fails exStGroup "g1" "alice"
    { id := "g1", type := ChatType.group, name := some "team", description := none,
      iconUrl := none, createdBy := some "alice", createdAt := 1, updatedAt := 1 }
    (by decide) (by decide)

/-! ## C4 -/

/-- C4 (amended): a private chat has exactly 2 participant rows at creation,
but the participant set is not immutable afterwards: the member-removal
endpoint never inspects the chat kind, so a self-removal by a participant from a
private chat (whose `createdBy` is absent) succeeds and strictly reduces the
participant count of the chat. -/
theorem c4_private_chat_participants :
    (∀ (st : State) (userId participantId newChatId pid1 pid2 : String) (now : Nat),
        1 ≤ participantId.length →
        getPrivateChatBetweenUsers st userId participantId = none →
        (∀ p ∈ st.participants, p.chatId ≠ newChatId) →
        (getChatParticipants
            (createChatHandler st userId participantId newChatId pid1 pid2 now).2
            newChatId).length = 2) ∧
    (∀ (st : State) (chatId callerId : String) (chat : Chat),
        getChat st chatId = some chat →
        chat.type = ChatType.priv →
        chat.createdBy = none →
        (removeMemberHandler st callerId chatId callerId).1 = ApiStatus.ok ∧
        ((∃ p ∈ st.participants, p.chatId = chatId ∧ p.userId = callerId) →
          (getChatParticipants (removeMemberHandler st callerId chatId callerId).2
              chatId).length < (getChatParticipants st chatId).length)) := by
  constructor
  · intro st userId participantId newChatId pid1 pid2 now hlen hnone hfresh
    have h0 : List.filter (fun p => p.chatId == newChatId) st.participants = [] :=
      List.filter_eq_nil_iff.mpr (fun a ha => by simp [hfresh a ha])
    simp [createChatHandler, addChatParticipant, getChatParticipants, hnone, hlen,
          List.filter_append, h0]
  · intro st chatId callerId chat hc htype hcb
    have hb : (callerId != callerId) = false := by simp
    have hcbf : (chat.createdBy == some callerId) = false := by rw [hcb]; rfl
    have hres : removeMemberHandler st callerId chatId callerId =
        (ApiStatus.ok, removeChatParticipant st chatId callerId) := by
      simp [removeMemberHandler, hc, hb, hcbf]
    refine ⟨by rw [hres], ?_⟩
    rintro ⟨p0, hp0, hpc, hpu⟩
    rw [hres]
    show (List.filter (fun p => p.chatId == chatId)
        (st.participants.filter
          (fun p => !(p.chatId == chatId && p.userId == callerId)))).length <
      (st.participants.filter (fun p => p.chatId == chatId)).length
    have hsw : List.filter (fun p => p.chatId == chatId)
        (st.participants.filter
          (fun p => !(p.chatId == chatId && p.userId == callerId))) =
        List.filter (fun p => !(p.chatId == chatId && p.userId == callerId))
          (st.participants.filter (fun p => p.chatId == chatId)) := by
      rw [List.filter_filter, List.filter_filter]
      congr 1
      funext a
      rw [Bool.and_comm]
    rw [hsw]
    apply List.length_filter_lt_length_iff_exists.mpr
    exact ⟨p0, List.mem_filter.mpr ⟨hp0, by simp [hpc]⟩, by simp [hpc, hpu]⟩

/-- C4 counterexample: "p1" is a private chat with 2 participants, and the
self-removal through the member-removal endpoint succeeds, leaving 1. -/
theorem c4_counterexample :
    (getChat exStPriv "p1").map (fun c => c.type) = some ChatType.priv ∧
    (getChatParticipants exStPriv "p1").length = 2 ∧
    (removeMemberHandler exStPriv "alice" "p1" "alice").1 = ApiStatus.ok ∧
    (getChatParticipants (removeMemberHandler exStPriv "alice" "p1" "alice").2
        "p1").length = 1 := by
  decide

/-- C4 witness: both halves of the amended theorem at concrete inputs — a
fresh private-chat creation out of the empty store, and the self-removal of alice
from the private chat "p1". -/
theorem c4_witness :
    (getChatParticipants
        (createChatHandler emptyState "alice" "bob" "c9" "r1" "r2" 7).2 "c9").length = 2 ∧
    (removeMemberHandler exStPriv "alice" "p1" "alice").1 = ApiStatus.ok ∧
    (getChatParticipants (removeMemberHandler exStPriv "alice" "p1" "alice").2
        "p1").length < (getChatParticipants exStPriv "p1").length := by
  refine ⟨?_, ?_, ?_⟩
  · exact c4_private_chat_participants.1 emptyState "alice" "bob" "c9" "r1" "r2" 7
      (by decide) (by decide) (by decide)
  · exact (c4_private_chat_participants.2 exStPriv "p1" "alice"
      { id := "p1", type := ChatType.priv, name := none, description := none,
        iconUrl := none, createdBy := none, createdAt := 4, updatedAt := 4 }
      (by decide) (by decide) (by decide)).1
  · exact (c4_private_chat_participants.2 exStPriv "p1" "alice"
      { id := "p1", type := ChatType.priv, name := none, description := none,
        iconUrl := none, createdBy := none, createdAt := 4, updatedAt := 4 }
      (by decide) (by decide) (by decide)).2
      ⟨{ id := "ra", chatId := "p1", userId := "alice", role := Role.member,
         joinedAt := 4, lastRead := none }, by decide, by decide, by decide⟩

/-! ## C7 -/

/-- C7 (amended): `addChatParticipant` never fails with Conflict: the
`chat_participants` table has a synthetic primary key and no uniqueness
constraint on (chatId, userId), so the insert always succeeds, appends the row,
and increments the number of rows for that pair — even when the pair already
exists.  Duplicate prevention is done only by callers that pre-check. -/
theorem c7_addParticipant_never_conflicts (st : State) (p : ChatParticipant) :
    (addChatParticipant st p).1 = p ∧
    (addChatParticipant st p).2.participants = st.participants ++ [p] ∧
    ((addChatParticipant st p).2.participants.filter
        (fun q => q.chatId == p.chatId && q.userId == p.userId)).length =
      (st.participants.filter
        (fun q => q.chatId == p.chatId && q.userId == p.userId)).length + 1 := by
  refine ⟨rfl, rfl, ?_⟩
  show (List.filter _ (st.participants ++ [p])).length = _
  rw [List.filter_append]
  simp

/-- C7 counterexample: in `exStPriv` the pair ("p1", "alice") already has a
Participation, yet inserting it again succeeds and changes the Membership
Ledger — afterwards the pair has two rows. -/
theorem c7_counterexample :
    (exStPriv.participants.filter
        (fun q => q.chatId == "p1" && q.userId == "alice")).length = 1 ∧
    (addChatParticipant exStPriv
        { id := "rx", chatId := "p1", userId := "alice", role := Role.member,
          joinedAt := 9, lastRead := none }).2.participants ≠ exStPriv.participants ∧
    ((addChatParticipant exStPriv
        { id := "rx", chatId := "p1", userId := "alice", role := Role.member,
          joinedAt := 9, lastRead := none }).2.participants.filter
        (fun q => q.chatId == "p1" && q.userId == "alice")).length = 2 := by
  decide

/-! ## C6 -/

/-- C6: posting into a channel by a sender who is not an admin participant
fails with Forbidden and leaves the whole store — in particular the Message
Log — unchanged. -/
theorem c6_channel_nonadmin_post_forbidden
    (st : State) (userId chatId newId : String) (body : SendMessageBody) (now : Nat)
    (chat : Chat)
    (hv : validSendMessage body = true)
    (hc : getChat st chatId = some chat)
    (hk : chat.type = ChatType.channel)
    (hna : ∀ p ∈ st.participants, p.chatId = chatId → p.userId = userId →
      p.role ≠ Role.admin) :
    sendMessageHandler st userId chatId body newId now = (ApiStatus.forbidden, st) := by
  have hcwd : getChatWithDetails st chatId =
      some { chat := chat, participants := getChatParticipants st chatId,
             lastMessage := (getMessages st chatId 1).head?, unreadCount := 0 } := by
    unfold getChatWithDetails
    rw [hc]
  have hkb : (chat.type == ChatType.channel) = true := by rw [hk]; simp
  cases hf : (getChatParticipants st chatId).find? (fun p => p.userId == userId) with
  | none =>
      simp [sendMessageHandler, hv, hcwd, hkb, hf]
  | some participant =>
      have hmem := List.mem_of_find?_eq_some hf
      have huid := List.find?_some hf
      unfold getChatParticipants at hmem
      rcases List.mem_filter.mp hmem with ⟨hpmem, hpchat⟩
      have hnadm : participant.role ≠ Role.admin :=
        hna participant hpmem (eq_of_beq hpchat) (eq_of_beq huid)
      have hr : (participant.role != Role.admin) = true := bne_iff_ne.mpr hnadm
      simp [sendMessageHandler, hv, hcwd, hkb, hf, hr]

/-- C6 witness: the bare member bob posting into the channel "ch1" is rejected
with Forbidden and the store is unchanged. -/
theorem c6_witness :
    sendMessageHandler exStChannel "bob" "ch1" ⟨"hi", "text", none, none, none⟩ "m1" 50 =
      (ApiStatus.forbidden, exStChannel) :=
  c6_channel_nonadmin_post_forbidden exStChannel "bob" "ch1" "m1"
    ⟨"hi", "text", none, none, none⟩ 50
    { id := "ch1", type := ChatType.channel, name := some "news", description := none,
      iconUrl := none, createdBy := some "alice", createdAt := 1, updatedAt := 1 }
    (by decide) (by decide) (by decide) (by decide)

/-! ## C2 -/

/-- C2 (amended): a message append to a non-channel chat (group or private)
succeeds for ANY authenticated sender — the handler checks membership only for
channels — so every current post by a participant is accepted, but a post by a
non-participant is accepted as well (no Forbidden; the message is appended to
the Message Log). -/
theorem c2_nonchannel_post_no_participant_check
    (st : State) (userId chatId newId : String) (body : SendMessageBody) (now : Nat)
    (chat : Chat)
    (hv : validSendMessage body = true)
    (hc : getChat st chatId = some chat)
    (hk : chat.type ≠ ChatType.channel) :
    (sendMessageHandler st userId chatId body newId now).1 = ApiStatus.ok ∧
    (sendMessageHandler st userId chatId body newId now).2.messages =
      st.messages ++
        [{ id := newId, chatId := chatId, senderId := userId,
           content := body.content.trim, type := body.type,
           attachmentUrl := body.attachmentUrl, attachmentName := body.attachmentName,
           attachmentSize := body.attachmentSize, createdAt := now, isRead := false }] := by
  have hcwd : getChatWithDetails st chatId =
      some { chat := chat, participants := getChatParticipants st chatId,
             lastMessage := (getMessages st chatId 1).head?, unreadCount := 0 } := by
    unfold getChatWithDetails
    rw [hc]
  have hkb : (chat.type == ChatType.channel) = false := beq_eq_false_iff_ne.mpr hk
  constructor <;> simp [sendMessageHandler, hv, hcwd, hkb, createMessage]

/-- C2 counterexample: dave has no Participation in the group chat "g1", yet
his post is accepted and a message is appended to the Message Log. -/
theorem c2_counterexample :
    getChatParticipant exStGroup "g1" "dave" = none ∧
    (sendMessageHandler exStGroup "dave" "g1"
        ⟨"hi", "text", none, none, none⟩ "m9" 100).1 = ApiStatus.ok ∧
    (sendMessageHandler exStGroup "dave" "g1"
        ⟨"hi", "text", none, none, none⟩ "m9" 100).2.messages.length =
      exStGroup.messages.length + 1 := by
  have hmsg : getMessages exStGroup "g1" 1 = [] := by
    unfold getMessages
    rw [show exStGroup.messages.filter (fun m => m.chatId == "g1") = [] from rfl,
        List.mergeSort_nil]
    rfl
  have hcwd : getChatWithDetails exStGroup "g1" =
      some { chat := { id := "g1", type := ChatType.group, name := some "team",
                       description := none, iconUrl := none, createdBy := some "alice",
                       createdAt := 1, updatedAt := 1 }
             participants := getChatParticipants exStGroup "g1"
             lastMessage := none
             unreadCount := 0 } := by
    unfold getChatWithDetails
    rw [show getChat exStGroup "g1" = some
      { id := "g1", type := ChatType.group, name := some "team",
        description := none, iconUrl := none, createdBy := some "alice",
        createdAt := 1, updatedAt := 1 } from by decide, hmsg]
    rfl
  refine ⟨by decide, ?_, ?_⟩ <;>
    simp [sendMessageHandler, hcwd, createMessage, show validSendMessage
      ⟨"hi", "text", none, none, none⟩ = true from by decide]

/-- C2 witness: the amended theorem instantiated with the non-participant dave
posting into the group chat "g1". -/
theorem c2_witness :
    (sendMessageHandler exStGroup "dave" "g1"
        ⟨"hello", "text", none, none, none⟩ "m8" 90).1 = ApiStatus.ok ∧
    (sendMessageHandler exStGroup "dave" "g1"
        ⟨"hello", "text", none, none, none⟩ "m8" 90).2.messages =
      exStGroup.messages ++
        [{ id := "m8", chatId := "g1", senderId := "dave",
           content := ("hello").trim, type := "text",
           attachmentUrl := none, attachmentName := none,
           attachmentSize := none, createdAt := 90, isRead := false }] :=
  c2_nonchannel_post_no_participant_check exStGroup "dave" "g1" "m8"
    ⟨"hello", "text", none, none, none⟩ 90
    { id := "g1", type := ChatType.group, name := some "team", description := none,
      iconUrl := none, createdBy := some "alice", createdAt := 1, updatedAt := 1 }
    (by decide) (by decide) (by decide)

/-! ## C10 -/

/-- C10: the friendship-status update handler never consults the caller
identity: any two callers get the same result and the same state change, and
when the status body is valid the row with the given id is updated — so a user
who is not a party to the friendship can accept or reject it. -/
theorem c10_friendship_update_caller_independent
    (st : State) (caller1 caller2 friendshipId statusBody : String) :
    (updateFriendshipHandler st caller1 friendshipId statusBody =
      updateFriendshipHandler st caller2 friendshipId statusBody) ∧
    ((statusBody = "accepted" ∨ statusBody = "rejected") →
      (updateFriendshipHandler st caller1 friendshipId statusBody).2.friendships =
        st.friendships.map (fun f =>
          if f.id == friendshipId then { f with status := statusBody } else f)) := by
  refine ⟨rfl, ?_⟩
  rintro (rfl | rfl) <;> rfl

/-- A pending friendship between alice and bob. -/
def exStFriend : State :=
  { friendships := [{ id := "f1", userId := "alice", friendId := "bob",
                      status := "pending", createdAt := 0 }] }

/-- C10 witness: mallory, a stranger to the friendship "f1" between alice and
bob, accepts it; the outcome equals what any other caller would get. -/
theorem c10_witness :
    (updateFriendshipHandler exStFriend "mallory" "f1" "accepted" =
      updateFriendshipHandler exStFriend "zoe" "f1" "accepted") ∧
    (updateFriendshipHandler exStFriend "mallory" "f1" "accepted").2.friendships =
      exStFriend.friendships.map (fun f =>
        if f.id == "f1" then { f with status := "accepted" } else f) :=
  ⟨(c10_friendship_update_caller_independent exStFriend "mallory" "zoe" "f1" "accepted").1,
   (c10_friendship_update_caller_independent exStFriend "mallory" "zoe" "f1"
      "accepted").2 (Or.inl rfl)⟩

/-! ## C9 -/

/-- C9: the chat list returned by `getUserChats` is sorted descending by the
createdAt of the last message (falling back to the createdAt of the chat itself), and every
chat in the list is one the user has a Participation in. -/
theorem c9_userChats_sorted_and_participants_only (st : State) (userId : String) :
    List.Pairwise (fun a b => chatSortTime b ≤ chatSortTime a) (getUserChats st userId) ∧
    ∀ c ∈ getUserChats st userId,
      ∃ p ∈ st.participants, p.userId = userId ∧ p.chatId = c.chat.id := by
  constructor
  · rw [getUserChats_def]
    refine List.Pairwise.imp ?_ (List.sorted_mergeSort ?_ ?_ _)
    · intro a b h
      exact of_decide_eq_true h
    · intro a b c h1 h2
      exact decide_eq_true (le_trans (of_decide_eq_true h2) (of_decide_eq_true h1))
    · intro a b
      rcases Nat.le_total (chatSortTime b) (chatSortTime a) with h | h <;> simp [h]
  · intro c hc
    rcases mem_getUserChats.mp hc with ⟨cid, cwd, ⟨p, hpmem, hpu, hpc⟩, hg, rfl⟩
    refine ⟨p, hpmem, hpu, ?_⟩
    show p.chatId = cwd.chat.id
    rw [getChatWithDetails_chat_id hg]
    exact hpc

/-! ## C5 -/

/-- C5: every entry of the chat list of the user carries as unread count exactly
the number of messages of that chat authored by someone else with createdAt
strictly greater than the read-cursor of the user (all such messages when the
cursor is null). -/
theorem c5_unread_count_correct (st : State) (userId : String) (c : ChatWithDetails)
    (hc : c ∈ getUserChats st userId) :
    c.unreadCount = specUnreadCount st.messages c.chat.id userId
      (specReadCursor st userId c.chat.id) := by
  rcases mem_getUserChats.mp hc with ⟨cid, cwd, -, hg, rfl⟩
  have hid : cwd.chat.id = cid := getChatWithDetails_chat_id hg
  show unreadCountQuery st cid userId
      (((st.participants.filter (fun p => p.userId == userId)).find?
          (fun p => p.chatId == cid)).bind (fun p => p.lastRead)) =
    specUnreadCount st.messages cwd.chat.id userId (specReadCursor st userId cwd.chat.id)
  rw [hid, userLastRead_eq_specReadCursor, unreadCountQuery_eq_spec]

/-! ## Witness store for C5 and C9 -/

/-- A private chat with two participants and three messages; the alice read
cursor is 10, bob wrote at 8 and 12, alice at 13 — so the unread count of alice
is 1. -/
def ch5 : Chat := { id := "c1", type := ChatType.priv, createdAt := 5, updatedAt := 5 }

def pa5 : ChatParticipant :=
  { id := "q1", chatId := "c1", userId := "alice", joinedAt := 5, lastRead := some 10 }

def pb5 : ChatParticipant := { id := "q2", chatId := "c1", userId := "bob", joinedAt := 5 }

def msg1 : Message :=
  { id := "w1", chatId := "c1", senderId := "bob", content := "one", createdAt := 8 }

def msg2 : Message :=
  { id := "w2", chatId := "c1", senderId := "bob", content := "two", createdAt := 12 }

def msg3 : Message :=
  { id := "w3", chatId := "c1", senderId := "alice", content := "three", createdAt := 13 }

def wSt : State := { chats := [ch5], participants := [pa5, pb5], messages := [msg1, msg2, msg3] }

def wCwd : ChatWithDetails :=
  { chat := ch5, participants := [pa5, pb5], lastMessage := some msg3, unreadCount := 1 }

theorem getMessages_wSt : getMessages wSt "c1" 1 = [msg3] := by
  unfold getMessages
  rw [show wSt.messages.filter (fun m => m.chatId == "c1") = [msg1, msg2, msg3] from by decide]
  rw [show [msg1, msg2, msg3].mergeSort (fun a b => decide (b.createdAt ≤ a.createdAt)) =
      [msg3, msg2, msg1] from by simp [msg1, msg2, msg3, List.mergeSort]]
  rfl

theorem getChatWithDetails_wSt : getChatWithDetails wSt "c1" =
    some { chat := ch5, participants := [pa5, pb5], lastMessage := some msg3,
           unreadCount := 0 } := by
  unfold getChatWithDetails
  rw [show getChat wSt "c1" = some ch5 from by decide, getMessages_wSt]
  decide

theorem getUserChats_wSt : getUserChats wSt "alice" = [wCwd] := by
  rw [getUserChats_def]
  rw [show wSt.participants.filter (fun p => p.userId == "alice") = [pa5] from by decide]
  simp only [List.map, List.filterMap, pa5, getChatWithDetails_wSt, List.mergeSort_singleton]
  decide

theorem wCwd_mem : wCwd ∈ getUserChats wSt "alice" := by
  rw [getUserChats_wSt]
  exact List.mem_singleton.mpr rfl

/-- C5 witness: in `wSt`, the list entry of alice for "c1" carries unread count 1,
which is the count of the spec (one message from bob after the cursor 10). -/
theorem c5_witness :
    wCwd.unreadCount = specUnreadCount wSt.messages wCwd.chat.id "alice"
      (specReadCursor wSt "alice" wCwd.chat.id) :=
  c5_unread_count_correct wSt "alice" wCwd wCwd_mem

/-- C9 witness: the entry `wCwd` of the chat list of alice indeed corresponds to a
Participation of alice. -/
theorem c9_witness :
    ∃ p ∈ wSt.participants, p.userId = "alice" ∧ p.chatId = wCwd.chat.id :=
  (c9_userChats_sorted_and_participants_only wSt "alice").2 wCwd wCwd_mem

end Myntraq
